import Mathlib

/-!
A shallow embedding of the Moswar-bot browser-automation scripts, and proofs
about them.  Python functions are translated into pure Lean functions over
explicit state records: the browser page is a record of which elements are
present and what text they carry, mutable player fields are threaded through
the functions, and Python exceptions are an explicit error result.
-/

namespace Moswar

/-- A session cookie as handled by `authorization.py`: a name, a value and an
expiry timestamp (seconds since the epoch). -/
structure Cookie where
  name : String
  value : String
  expiry : Int
  deriving Repr, DecidableEq

/-- The Python exceptions the modelled code can raise. -/
inductive PyError where
  /-- An unbound local variable was referenced. -/
  | nameError : PyError
  /-- selenium `NoSuchElementException` for the named locator. -/
  | noSuchElement : String → PyError
  /-- `int(...)` applied to an unparsable string. -/
  | valueError : PyError
  /-- An unsupported operation between `None` and a number. -/
  | typeError : PyError
  /-- Opening or writing the cookie-store file failed. -/
  | writeError : PyError
  deriving Repr, DecidableEq

namespace Authorization

/-- The environment `log_in` (authorization.py, lines 13-96) runs in:
the cookie-store file (`none` means the file does not exist), the current
clock reading, which login-form elements the page carries, whether writing
the store succeeds, the cookies the browser reports after an interactive
login, and the credential pair. -/
structure Env where
  store : Option (List Cookie)
  now : Int
  emailField : Bool
  passwordField : Bool
  submitButton : Bool
  writeOk : Bool
  issuedCookies : List Cookie
  login : String
  password : String
  deriving Repr, DecidableEq

/-- The observable effects of one `log_in` run: the cookie-store file content
afterwards, the cookies injected into the browser, whether the page was
reloaded, what was typed into the credential fields, and whether the
submission control was clicked. -/
structure Effects where
  storeAfter : Option (List Cookie)
  injected : List Cookie
  refreshed : Bool
  typedLogin : Option String
  typedPassword : Option String
  clickedSubmit : Bool
  deriving Repr, DecidableEq

/-- Effects of a run that performed no browser action and left no store. -/
def noEffects : Effects :=
  { storeAfter := none, injected := [], refreshed := false,
    typedLogin := none, typedPassword := none, clickedSubmit := false }

/-- The interactive-login branch of `log_in` (authorization.py, lines 67-96):
find the field named "email" and type the login, find the field named
"password" and type the password, click the submit control, then dump the
browser's cookies to the store file.  Each `find_element` raises
`NoSuchElementException` when the element is absent, and a failing store
write raises.  On entry to this branch the store file never exists (it was
absent or was just unlinked), hence `storeAfter := none` on failure. -/
def interactive_login (env : Env) : Effects × Except PyError Unit :=
  if env.emailField = false then
    (noEffects, .error (.noSuchElement "email"))
  else if env.passwordField = false then
    ({ noEffects with typedLogin := some env.login },
     .error (.noSuchElement "password"))
  else if env.submitButton = false then
    ({ noEffects with
        typedLogin := some env.login, typedPassword := some env.password },
     .error (.noSuchElement "submit"))
  else if env.writeOk = false then
    ({ noEffects with
        typedLogin := some env.login, typedPassword := some env.password,
        clickedSubmit := true },
     .error .writeError)
  else
    ({ storeAfter := some env.issuedCookies, injected := [], refreshed := false,
       typedLogin := some env.login, typedPassword := some env.password,
       clickedSubmit := true },
     .ok ())

/-- `log_in` (authorization.py, lines 13-96).  If the cookie file exists it is
unpickled and scanned for the first cookie named "authkey" (`for cookie in
cookies: if cookie["name"] == "authkey": auth_cookie = cookie; break`); when
no such cookie exists, `auth_cookie["expiry"]` references the unbound local
`auth_cookie` and raises.  An expired authkey unlinks the file and falls
through to the interactive branch; a valid one injects every stored cookie
into the driver and refreshes the page. -/
def log_in (env : Env) : Effects × Except PyError Unit :=
  match env.store with
  | none => interactive_login env
  | some cookies =>
    match cookies.find? (fun c => c.name == "authkey") with
    | none =>
      ({ noEffects with storeAfter := some cookies }, .error .nameError)
    | some auth_cookie =>
      if auth_cookie.expiry < env.now then
        interactive_login env
      else
        ({ storeAfter := some cookies, injected := cookies, refreshed := true,
           typedLogin := none, typedPassword := none, clickedSubmit := false },
         .ok ())

/-- What the branch decision of `log_in` may depend on: whether the store file
exists, and, when it does, whether it holds an "authkey" cookie and that
cookie's expiry. -/
def authkeySignature (store : Option (List Cookie)) : Option (Option Int) :=
  store.map (fun cookies =>
    (cookies.find? (fun c => c.name == "authkey")).map Cookie.expiry)

/-- The two branches of `log_in`'s login logic. -/
inductive Branch where
  | restore : Branch
  | interactive : Branch
  deriving Repr, DecidableEq

/-- Classify a `log_in` run by its observable outcome: a reload means the
saved session was restored; a crash on the unbound `auth_cookie` means no
branch ran; every other outcome (success or an interactive-branch exception)
means the interactive branch ran. -/
def classifyRun (r : Effects × Except PyError Unit) : Option Branch :=
  match r with
  | (eff, .ok _) => if eff.refreshed then some .restore else some .interactive
  | (_, .error .nameError) => none
  | (_, .error _) => some .interactive

/-- The branch a `log_in` run takes, read off its observable outcome. -/
def branchTaken (env : Env) : Option Branch :=
  classifyRun (log_in env)

end Authorization

/-- The decorator `require_location_page` (utils/decorators.py, lines 9-21):
a method over mutable state `σ` returning an optional value is wrapped so
that it runs only when `self.is_opened()` holds; otherwise the wrapper
returns `None` without invoking the wrapped method. -/
def require_location_page {σ α : Type} (is_opened : σ → Bool)
    (func : σ → σ × Option α) (s : σ) : σ × Option α :=
  if is_opened s = false then (s, none) else func s

/-- Events recorded during one start-activity invocation: whether the
remaining-time countdown was re-parsed from the page and whether the start
control was clicked. -/
structure ActionEvents where
  timeRead : Bool
  startClicked : Bool
  deriving Repr, DecidableEq

/-- Python `str.split(sep)` for a one-character separator, over the string's
characters: splits at every occurrence of `sep` and keeps empty pieces, and
an empty input yields one empty piece, as in Python. -/
def splitChar (sep : Char) : List Char → List (List Char)
  | [] => [[]]
  | c :: rest =>
    let r := splitChar sep rest
    if c = sep then [] :: r
    else
      match r with
      | [] => [[c]]
      | g :: gs => (c :: g) :: gs

/-- The digits of a decimal numeral, folded into a `Nat`; `none` when the
input is empty or contains a non-digit. -/
def digitsToNat (cs : List Char) : Option Nat :=
  if cs.isEmpty then none
  else
    cs.foldl
      (fun acc c =>
        match acc with
        | none => none
        | some n => if c.isDigit then some (n * 10 + (c.toNat - 48)) else none)
      (some 0)

/-- Python `int(s)` on the text the scraped pages carry: an optional leading
minus sign followed by decimal digits; `none` models the `ValueError` raise
on anything else. -/
def pyInt? (cs : List Char) : Option Int :=
  match cs with
  | '-' :: rest => (digitsToNat rest).map (fun n => -(n : Int))
  | _ => (digitsToNat cs).map (fun n => (n : Int))

/-- The loop shared by `Player.use_item` and `PetForFightMain.use_item`
(`for i in range(times): try: el.click() ... except: return None`):
`clickFails j` tells whether the j-th click attempt raises.  Returns the
number of click attempts made and the number of successful clicks
(`used_times`); a failed attempt is caught and ends the loop. -/
def use_items_loop (clickFails : Nat → Bool) : Nat → Nat → Nat × Nat
  | _, 0 => (0, 0)
  | i, n + 1 =>
    if clickFails i then (1, 0)
    else
      let r := use_items_loop clickFails (i + 1) n
      (1 + r.1, 1 + r.2)

namespace Shaurburgers

/-- `Shaurburgers.BASE_URL` (locations_secondary.py, line 27). -/
def BASE_URL : String := "https://www.moswar.ru/shaurburgers/"

/-- The state a Shaurburgers method runs over: the driver's current URL, the
page elements (`work_leave_button` presence before and after the start click,
the `work_select_hours` element's text when present, its selectable option
texts, `work_start_button` presence) and the mutable player fields. -/
structure State where
  currentUrl : String
  leaveButton : Bool
  leaveButtonAfter : Bool
  selectHoursText : Option String
  selectOptions : List String
  startButton : Bool
  on_work : Bool
  work_time_left : Int
  deriving Repr, DecidableEq

/-- `Shaurburgers.is_opened` (locations_secondary.py, lines 45-49). -/
def is_opened (s : State) : Bool :=
  s.currentUrl == BASE_URL

/-- `Shaurburgers.is_work_active` (locations_secondary.py, lines 64-75),
decorated with `require_location_page`: looks for `work_leave_button` and
records the outcome in `player.on_work`. -/
def is_work_active : State → State × Option Bool :=
  require_location_page is_opened (fun s =>
    if s.leaveButton then ({ s with on_work := true }, some true)
    else ({ s with on_work := false }, some false))

/-- The parse `int(el.text.split("\n")[-1].split(" ")[0])` in
`get_work_time_left` (locations_secondary.py, line 86); `none` means the
parse raises. -/
def parse_work_hours (text : String) : Option Int :=
  match (splitChar '\n' text.data).getLast? with
  | none => none
  | some line =>
    match (splitChar ' ' line).head? with
    | none => none
    | some tok => pyInt? tok

/-- `Shaurburgers.get_work_time_left` (locations_secondary.py, lines 77-93),
decorated with `require_location_page`: `-9999` while working, otherwise the
hour count parsed from `work_select_hours`, with any exception (missing
element or failing parse) turned into `0`; the result is also stored into
`player.work_time_left`. -/
def get_work_time_left : State → State × Option Int :=
  require_location_page is_opened (fun s =>
    match is_work_active s with
    | (s1, r) =>
      let time_left : Int :=
        if r = some true then -9999
        else
          match s1.selectHoursText with
          | none => 0
          | some text => (parse_work_hours text).getD 0
      ({ s1 with work_time_left := time_left }, some time_left))

/-- The string `work_hours_str` built in `start_work_shift`
(locations_secondary.py, lines 125-131). -/
def work_hours_str (work_hours : Int) : String :=
  if work_hours = 1 then "1 час"
  else if work_hours = 2 ∨ work_hours = 3 ∨ work_hours = 4 then
    toString work_hours ++ " часа"
  else toString work_hours ++ " часов"

/-- The body of `Shaurburgers.start_work_shift` (locations_secondary.py,
lines 96-150) without its decorator: validate the requested hours, bail out
when already working, re-read the remaining hours via `get_work_time_left`
and bail out when too few are left; otherwise select the duration, click the
start button (after which the page is re-sampled) and, when the shift shows
active, decrement `player.work_time_left`.  Element lookups raise when the
element is missing; comparing a `None` time with an `int` raises. -/
def start_work_shift_body (work_hours : Int) (s : State) :
    State × ActionEvents × Except PyError Unit :=
  if ¬ (1 ≤ work_hours ∧ work_hours ≤ 8) then
    (s, ⟨false, false⟩, .ok ())
  else
    match is_work_active s with
    | (s1, some true) => (s1, ⟨false, false⟩, .ok ())
    | (s1, _) =>
      match get_work_time_left s1 with
      | (s2, none) => (s2, ⟨false, false⟩, .error .typeError)
      | (s2, some work_time_left) =>
        if work_time_left < work_hours then
          (s2, ⟨true, false⟩, .ok ())
        else if s2.selectHoursText.isNone then
          (s2, ⟨true, false⟩, .error (.noSuchElement "time"))
        else if s2.selectOptions.contains (work_hours_str work_hours) = false then
          (s2, ⟨true, false⟩, .error (.noSuchElement "select option"))
        else if s2.startButton = false then
          (s2, ⟨true, false⟩, .error (.noSuchElement "work_start_button"))
        else
          match is_work_active { s2 with leaveButton := s2.leaveButtonAfter } with
          | (s4, some true) =>
            ({ s4 with work_time_left := s4.work_time_left - work_hours },
             ⟨true, true⟩, .ok ())
          | (s4, _) => (s4, ⟨true, true⟩, .ok ())

/-- `Shaurburgers.start_work_shift` (locations_secondary.py, lines 96-150):
the body wrapped in `require_location_page`. -/
def start_work_shift (work_hours : Int) :
    State → State × Option (ActionEvents × Except PyError Unit) :=
  require_location_page is_opened (fun s =>
    match start_work_shift_body work_hours s with
    | (s1, r) => (s1, some r))

end Shaurburgers

namespace Alley

/-- The state an Alley patrol method runs over: page elements
(`patrol_active` presence before and after the start click, the
`patrol_time_left` element's text when present, `patrol_select_minutes`
presence and option texts, `patrol_start_button` presence) and the mutable
player fields. -/
structure State where
  patrolActive : Bool
  patrolActiveAfter : Bool
  timeLeftText : Option String
  selectPresent : Bool
  selectOptions : List String
  startButton : Bool
  on_patrol : Bool
  patrol_time_left : Int
  deriving Repr, DecidableEq

/-- `Alley.is_patrol_active` (alley.py, lines 329-339): looks for the
`patrol_active` element and records the outcome in `player.on_patrol`. -/
def is_patrol_active (s : State) : State × Bool :=
  if s.patrolActive then ({ s with on_patrol := true }, true)
  else ({ s with on_patrol := false }, false)

/-- The parse `int(el.text.split(" ")[-2])` in `get_patrol_time_left`
(alley.py, line 347): index `-2` raises on a list with fewer than two
elements. -/
def parse_patrol_time (text : String) : Option Int :=
  let parts := splitChar ' ' text.data
  if parts.length < 2 then none
  else
    match parts[parts.length - 2]? with
    | none => none
    | some tok => pyInt? tok

/-- `Alley.get_patrol_time_left` (alley.py, lines 341-353): the minutes
parsed from `patrol_time_left`, with any exception (missing element or
failing parse) turned into `0`; also stored into `player.patrol_time_left`. -/
def get_patrol_time_left (s : State) : State × Int :=
  let time_left : Int :=
    match s.timeLeftText with
    | none => 0
    | some text => (parse_patrol_time text).getD 0
  ({ s with patrol_time_left := time_left }, time_left)

/-- `Alley.start_patrol` (alley.py, lines 354-390): validate the requested
minutes (`20` or `40`), bail out when already on patrol, re-read the
remaining minutes and bail out when too few are left; otherwise select the
duration (`str(patrol_minutes) + " минут"`), click the start button (after
which the page is re-sampled) and, when the patrol shows active, decrement
`player.patrol_time_left`.  Element lookups raise when the element is
missing. -/
def start_patrol (patrol_minutes : Int) (s : State) :
    State × ActionEvents × Except PyError Unit :=
  if ¬ (patrol_minutes = 20 ∨ patrol_minutes = 40) then
    (s, ⟨false, false⟩, .ok ())
  else
    match is_patrol_active s with
    | (s1, true) => (s1, ⟨false, false⟩, .ok ())
    | (s1, false) =>
      match get_patrol_time_left s1 with
      | (s2, patrol_time_left) =>
        if patrol_time_left < patrol_minutes then
          (s2, ⟨true, false⟩, .ok ())
        else if s2.selectPresent = false then
          (s2, ⟨true, false⟩, .error (.noSuchElement "patrol_select_minutes"))
        else if s2.selectOptions.contains (toString patrol_minutes ++ " минут") = false then
          (s2, ⟨true, false⟩, .error (.noSuchElement "select option"))
        else if s2.startButton = false then
          (s2, ⟨true, false⟩, .error (.noSuchElement "patrol_start_button"))
        else
          match is_patrol_active { s2 with patrolActive := s2.patrolActiveAfter } with
          | (s4, true) =>
            ({ s4 with patrol_time_left := s4.patrol_time_left - patrol_minutes },
             ⟨true, true⟩, .ok ())
          | (s4, false) => (s4, ⟨true, true⟩, .ok ())

end Alley

namespace Player

/-- The page state `Player.use_item` (player.py, lines 551-599) reads: whether
the inventory button for the item is present, the text of its sibling `count`
element (`none` means the element is missing, so `find_element` raises), and
which click attempts raise. -/
structure ItemPage where
  itemEl : Bool
  countText : Option String
  clickFails : Nat → Bool

/-- `Player.use_item` (player.py, lines 551-599): only the item
"Полезный пельмень" is supported; a missing item button is caught and
logged; the `count` sibling lookup and the `int` parse are NOT guarded, so
they raise; when the parsed count is below the requested `times` the method
returns without clicking; otherwise it clicks up to `times` times, stopping
at the first failing click (which is caught).  Returns the number of click
attempts and the Python outcome (`.ok ()` is a normal `None` return). -/
def use_item (item : String) (times : Int) (page : ItemPage) :
    Nat × Except PyError Unit :=
  if item = "Полезный пельмень" then
    if page.itemEl = false then (0, .ok ())
    else
      match page.countText with
      | none => (0, .error (.noSuchElement "count"))
      | some t =>
        match pyInt? (t.data.filter (fun c => c != '#')) with
        | none => (0, .error .valueError)
        | some count =>
          if count < times then (0, .ok ())
          else ((use_items_loop page.clickFails 0 times.toNat).1, .ok ())
  else (0, .ok ())

end Player

namespace PetForFightMain

/-- `PetForFightMain.item_img_links` (pets.py, line 47). -/
def item_img_links : List (String × String) :=
  [("Косточка", "/@/images/obj/gifts/gift-1.png")]

/-- The page state `PetForFightMain.use_item` (pets.py, lines 173-227) reads:
whether the item's parent div is present, the text of its inner `count`
element (`none` means the element is missing, so `find_element` raises),
whether the inner `action` element is present, and which click attempts
raise. -/
structure ItemPage where
  itemEl : Bool
  countText : Option String
  actionEl : Bool
  clickFails : Nat → Bool

/-- `PetForFightMain.use_item` (pets.py, lines 173-227): the item must be a
key of `item_img_links`; a missing item div is caught and logged; the
`count` and `action` lookups and the `int` parse are NOT guarded, so they
raise; when the parsed count is below the requested `times` the method
returns without clicking; otherwise it clicks the `action` element up to
`times` times, stopping at the first failing click (which is caught). -/
def use_item (item : String) (times : Int) (page : ItemPage) :
    Nat × Except PyError Unit :=
  if (item_img_links.lookup item).isSome = false then (0, .ok ())
  else if page.itemEl = false then (0, .ok ())
  else
    match page.countText with
    | none => (0, .error (.noSuchElement "count"))
    | some t =>
      if page.actionEl = false then (0, .error (.noSuchElement "action"))
      else
        match pyInt? (t.data.filter (fun c => c != '#')) with
        | none => (0, .error .valueError)
        | some count =>
          if count < times then (0, .ok ())
          else ((use_items_loop page.clickFails 0 times.toNat).1, .ok ())

end PetForFightMain

namespace HumanSimulation

/-- Model of `random.uniform(a, b)`: `a + (b - a) * u` for a sample
`u ∈ [0, 1]` supplied as an explicit parameter. -/
def uniform (a b u : ℚ) : ℚ := a + (b - a) * u

/-- `random_delay` (utils/human_simulation.py, lines 6-26): raise `ValueError`
when `max_time < min_time`, then when either bound is negative; otherwise
sleep `random.uniform(min_time, max(min_time, max_time))` seconds and return
`None`.  `.ok d` models sleeping for `d` seconds and then returning. -/
def random_delay (min_time max_time : ℚ) (u : ℚ) : Except String ℚ :=
  if max_time < min_time then
    .error "max_time must be greater than or equal to min_time"
  else if min_time < 0 ∨ max_time < 0 then
    .error "min_time and max_time must be non-negative"
  else
    .ok (uniform min_time (max min_time max_time) u)

end HumanSimulation

namespace Authorization

/-- Claim C1: for every existing cookie store whose "authkey" marker has an
expiry strictly earlier than the current time, `log_in` performs interactive
credential submission (fills the identifier and secret fields, triggers the
submission control), captures the newly issued session markers from the
browser, and persists them to the store, overwriting any prior content (the
old store file is deleted and the final store holds exactly the newly issued
cookies). -/
theorem log_in_expired_performs_interactive_login (env : Env)
    (cookies : List Cookie) (auth_cookie : Cookie)
    (hstore : env.store = some cookies)
    (hfind : cookies.find? (fun c => c.name == "authkey") = some auth_cookie)
    (hexp : auth_cookie.expiry < env.now)
    (he : env.emailField = true) (hp : env.passwordField = true)
    (hs : env.submitButton = true) (hw : env.writeOk = true) :
    log_in env =
      ({ storeAfter := some env.issuedCookies, injected := [], refreshed := false,
         typedLogin := some env.login, typedPassword := some env.password,
         clickedSubmit := true }, .ok ()) := by
  simp only [log_in, hstore, hfind]
  rw [if_pos hexp]
  simp [interactive_login, he, hp, hs, hw]

/-- Witness for C1 on a concrete expired store. -/
theorem log_in_expired_performs_interactive_login_witness :
    ((⟨"authkey", "old", 50⟩ : Cookie).expiry < (100 : Int)) ∧
    log_in { store := some [⟨"other", "x", 7⟩, ⟨"authkey", "old", 50⟩], now := 100,
             emailField := true, passwordField := true, submitButton := true,
             writeOk := true, issuedCookies := [⟨"authkey", "new", 999⟩],
             login := "user", password := "pw" } =
      ({ storeAfter := some [⟨"authkey", "new", 999⟩], injected := [], refreshed := false,
         typedLogin := some "user", typedPassword := some "pw",
         clickedSubmit := true }, .ok ()) :=
  ⟨by decide,
   log_in_expired_performs_interactive_login
     { store := some [⟨"other", "x", 7⟩, ⟨"authkey", "old", 50⟩], now := 100,
       emailField := true, passwordField := true, submitButton := true,
       writeOk := true, issuedCookies := [⟨"authkey", "new", 999⟩],
       login := "user", password := "pw" }
     [⟨"other", "x", 7⟩, ⟨"authkey", "old", 50⟩] ⟨"authkey", "old", 50⟩
     rfl (by decide) (by decide) rfl rfl rfl rfl⟩

/-- Claim C2: for every existing cookie store whose "authkey" marker has an
expiry at or after the current time, `log_in` injects every stored marker
into the browsing context and reloads the page, submits no credential
fields, and leaves the store file's content unchanged. -/
theorem log_in_valid_restores_session (env : Env)
    (cookies : List Cookie) (auth_cookie : Cookie)
    (hstore : env.store = some cookies)
    (hfind : cookies.find? (fun c => c.name == "authkey") = some auth_cookie)
    (hvalid : env.now ≤ auth_cookie.expiry) :
    log_in env =
      ({ storeAfter := some cookies, injected := cookies, refreshed := true,
         typedLogin := none, typedPassword := none, clickedSubmit := false },
       .ok ()) := by
  simp only [log_in, hstore, hfind]
  rw [if_neg (not_lt.mpr hvalid)]

/-- Witness for C2 on a concrete valid store. -/
theorem log_in_valid_restores_session_witness :
    ((100 : Int) ≤ (⟨"authkey", "k", 200⟩ : Cookie).expiry) ∧
    log_in { store := some [⟨"other", "x", 7⟩, ⟨"authkey", "k", 200⟩], now := 100,
             emailField := false, passwordField := false, submitButton := false,
             writeOk := false, issuedCookies := [], login := "user", password := "pw" } =
      ({ storeAfter := some [⟨"other", "x", 7⟩, ⟨"authkey", "k", 200⟩],
         injected := [⟨"other", "x", 7⟩, ⟨"authkey", "k", 200⟩], refreshed := true,
         typedLogin := none, typedPassword := none, clickedSubmit := false },
       .ok ()) :=
  ⟨by decide,
   log_in_valid_restores_session
     { store := some [⟨"other", "x", 7⟩, ⟨"authkey", "k", 200⟩], now := 100,
       emailField := false, passwordField := false, submitButton := false,
       writeOk := false, issuedCookies := [], login := "user", password := "pw" }
     [⟨"other", "x", 7⟩, ⟨"authkey", "k", 200⟩] ⟨"authkey", "k", 200⟩
     rfl (by decide) (by decide)⟩

/-- Claim C3: when the cookie store file exists but holds no marker named
"authkey", the Python `for`-loop never binds `auth_cookie`, so the
subsequent `auth_cookie["expiry"]` raises an unbound-variable error instead
of discarding the store and logging in interactively: here `log_in` on such
a store raises `NameError`, fills no field, clicks nothing, and leaves the
store in place. -/
theorem log_in_missing_authkey_raises_name_error :
    log_in { store := some [⟨"session", "abc", 0⟩, ⟨"csrf", "t", 999⟩], now := 100,
             emailField := true, passwordField := true, submitButton := true,
             writeOk := true, issuedCookies := [⟨"authkey", "new", 999⟩],
             login := "user", password := "pw" } =
      ({ storeAfter := some [⟨"session", "abc", 0⟩, ⟨"csrf", "t", 999⟩], injected := [],
         refreshed := false, typedLogin := none, typedPassword := none,
         clickedSubmit := false }, .error .nameError) := rfl

/-- Claim C4: in the interactive-login branch (store absent or authkey
expired), a missing identifier field, a missing secret field, a missing
submission control, or a failing store write makes `log_in` raise rather
than return normally, and the session-restore branch does not run (no page
reload, no cookie injection). -/
theorem log_in_interactive_failures_raise (env : Env)
    (hbranch : env.store = none ∨
      ∃ cookies auth_cookie, env.store = some cookies ∧
        cookies.find? (fun c => c.name == "authkey") = some auth_cookie ∧
        auth_cookie.expiry < env.now)
    (hfail : env.emailField = false ∨ env.passwordField = false ∨
      env.submitButton = false ∨ env.writeOk = false) :
    (∃ e, (log_in env).2 = Except.error e) ∧
      (log_in env).1.refreshed = false ∧ (log_in env).1.injected = [] := by
  have hrun : log_in env = interactive_login env := by
    rcases hbranch with h | ⟨cookies, auth_cookie, hst, hf, hex⟩
    · simp [log_in, h]
    · simp only [log_in, hst, hf]
      rw [if_pos hex]
  rw [hrun]
  unfold interactive_login
  cases he : env.emailField <;> cases hp : env.passwordField <;>
    cases hs : env.submitButton <;> cases hw : env.writeOk <;>
    simp_all [noEffects]

/-- Witness for C4: no store and no identifier field. -/
theorem log_in_interactive_failures_raise_witness :
    (∃ e, (log_in { store := none, now := 0, emailField := false, passwordField := true,
                    submitButton := true, writeOk := true, issuedCookies := [],
                    login := "user", password := "pw" }).2 = Except.error e) ∧
      (log_in { store := none, now := 0, emailField := false, passwordField := true,
                submitButton := true, writeOk := true, issuedCookies := [],
                login := "user", password := "pw" }).1.refreshed = false ∧
      (log_in { store := none, now := 0, emailField := false, passwordField := true,
                submitButton := true, writeOk := true, issuedCookies := [],
                login := "user", password := "pw" }).1.injected = [] :=
  log_in_interactive_failures_raise
    { store := none, now := 0, emailField := false, passwordField := true,
      submitButton := true, writeOk := true, issuedCookies := [],
      login := "user", password := "pw" }
    (Or.inl rfl) (Or.inl rfl)

/-- Helper: every run of the interactive branch classifies as interactive. -/
theorem classifyRun_interactive_login (env : Env) :
    classifyRun (interactive_login env) = some Branch.interactive := by
  cases he : env.emailField <;> cases hp : env.passwordField <;>
    cases hs : env.submitButton <;> cases hw : env.writeOk <;>
    simp [interactive_login, classifyRun, noEffects, he, hp, hs, hw]

/-- Claim C5: the branch `log_in` takes depends only on whether the store
file exists and on the expiry of the first stored "authkey" marker compared
with the current time: two runs at the same current time whose stores agree
on that signature take the same branch, whatever the other markers, marker
values and credentials are. -/
theorem log_in_branch_depends_only_on_authkey (env1 env2 : Env)
    (hnow : env1.now = env2.now)
    (hsig : authkeySignature env1.store = authkeySignature env2.store) :
    branchTaken env1 = branchTaken env2 := by
  cases h1 : env1.store with
  | none =>
    cases h2 : env2.store with
    | none =>
      simp only [branchTaken, log_in, h1, h2]
      rw [classifyRun_interactive_login, classifyRun_interactive_login]
    | some c2 => simp [authkeySignature, h1, h2] at hsig
  | some c1 =>
    cases h2 : env2.store with
    | none => simp [authkeySignature, h1, h2] at hsig
    | some c2 =>
      have hsig' : (c1.find? (fun c => c.name == "authkey")).map Cookie.expiry =
          (c2.find? (fun c => c.name == "authkey")).map Cookie.expiry := by
        simpa [authkeySignature, h1, h2] using hsig
      cases hf1 : c1.find? (fun c => c.name == "authkey") with
      | none =>
        cases hf2 : c2.find? (fun c => c.name == "authkey") with
        | none => simp [branchTaken, log_in, h1, h2, hf1, hf2, classifyRun]
        | some a2 => rw [hf1, hf2] at hsig'; simp at hsig'
      | some a1 =>
        cases hf2 : c2.find? (fun c => c.name == "authkey") with
        | none => rw [hf1, hf2] at hsig'; simp at hsig'
        | some a2 =>
          rw [hf1, hf2] at hsig'
          simp only [Option.map_some', Option.some.injEq] at hsig'
          simp only [branchTaken, log_in, h1, h2, hf1, hf2]
          by_cases hlt : a2.expiry < env2.now
          · rw [if_pos (by rw [hsig', hnow]; exact hlt), if_pos hlt]
            rw [classifyRun_interactive_login, classifyRun_interactive_login]
          · rw [if_neg (by rw [hsig', hnow]; exact hlt), if_neg hlt]
            simp [classifyRun]

/-- Witness for C5: two stores sharing only the authkey expiry, read at the
same time with different credentials, take the same branch. -/
theorem log_in_branch_depends_only_on_authkey_witness :
    ((100 : Int) = (100 : Int)) ∧
    authkeySignature (some [⟨"authkey", "v1", 200⟩, ⟨"extra", "e", 1⟩]) =
      authkeySignature (some [⟨"authkey", "v2", 200⟩]) ∧
    branchTaken { store := some [⟨"authkey", "v1", 200⟩, ⟨"extra", "e", 1⟩], now := 100,
                  emailField := true, passwordField := true, submitButton := true,
                  writeOk := true, issuedCookies := [], login := "a", password := "b" } =
      branchTaken { store := some [⟨"authkey", "v2", 200⟩], now := 100,
                    emailField := false, passwordField := false, submitButton := false,
                    writeOk := false, issuedCookies := [], login := "c", password := "d" } :=
  ⟨rfl, by decide,
   log_in_branch_depends_only_on_authkey
     { store := some [⟨"authkey", "v1", 200⟩, ⟨"extra", "e", 1⟩], now := 100,
       emailField := true, passwordField := true, submitButton := true,
       writeOk := true, issuedCookies := [], login := "a", password := "b" }
     { store := some [⟨"authkey", "v2", 200⟩], now := 100,
       emailField := false, passwordField := false, submitButton := false,
       writeOk := false, issuedCookies := [], login := "c", password := "d" }
     rfl (by decide)⟩

end Authorization

namespace HumanSimulation

/-- Claim C7: `random_delay` raises `ValueError` exactly when
`max_time < min_time` or either bound is negative, and for non-negative
bounds with `min_time ≤ max_time` it sleeps a duration drawn from the closed
interval between them and returns: the slept duration never falls outside
those bounds, for any random sample `u ∈ [0, 1]`. -/
theorem random_delay_spec (min_time max_time u : ℚ)
    (hu0 : 0 ≤ u) (hu1 : u ≤ 1) :
    ((∃ msg, random_delay min_time max_time u = Except.error msg) ↔
      (max_time < min_time ∨ min_time < 0 ∨ max_time < 0)) ∧
    (0 ≤ min_time → min_time ≤ max_time →
      ∃ d, random_delay min_time max_time u = Except.ok d ∧
        min_time ≤ d ∧ d ≤ max_time) := by
  constructor
  · constructor
    · rintro ⟨msg, hm⟩
      unfold random_delay at hm
      split_ifs at hm with h1 h2
      · exact Or.inl h1
      · exact Or.inr h2
    · intro h
      unfold random_delay
      split_ifs with h1 h2
      · exact ⟨_, rfl⟩
      · exact ⟨_, rfl⟩
      · rcases h with h | h | h
        · exact absurd h h1
        · exact absurd (Or.inl h) h2
        · exact absurd (Or.inr h) h2
  · intro hmin hle
    have h1 : ¬ max_time < min_time := not_lt.mpr hle
    have h2 : ¬ (min_time < 0 ∨ max_time < 0) := by
      push_neg
      exact ⟨hmin, le_trans hmin hle⟩
    refine ⟨uniform min_time (max min_time max_time) u, ?_, ?_, ?_⟩
    · unfold random_delay
      rw [if_neg h1, if_neg h2]
    · unfold uniform
      rw [max_eq_right hle]
      nlinarith [mul_nonneg (sub_nonneg.mpr hle) hu0]
    · unfold uniform
      rw [max_eq_right hle]
      nlinarith [mul_le_mul_of_nonneg_left hu1 (sub_nonneg.mpr hle)]

/-- Witness for C7: bounds 1 and 2 with sample 1/2. -/
theorem random_delay_spec_witness :
    (0 : ℚ) ≤ 1/2 ∧ (1/2 : ℚ) ≤ 1 ∧ (0 : ℚ) ≤ 1 ∧ (1 : ℚ) ≤ 2 ∧
    ∃ d, random_delay 1 2 (1/2) = Except.ok d ∧ (1 : ℚ) ≤ d ∧ d ≤ 2 :=
  ⟨by norm_num, by norm_num, by norm_num, by norm_num,
   (random_delay_spec 1 2 (1/2) (by norm_num) (by norm_num)).2
     (by norm_num) (by norm_num)⟩

end HumanSimulation

/-- Claim C8: a method wrapped in `require_location_page` returns `None`
without invoking the wrapped method whenever `is_opened()` is false, so the
state (player object and browser) is left exactly as it was, for every
possible wrapped method. -/
theorem require_location_page_aborts_when_not_opened {σ α : Type}
    (is_opened : σ → Bool) (func : σ → σ × Option α) (s : σ)
    (h : is_opened s = false) :
    require_location_page is_opened func s = (s, none) := by
  simp [require_location_page, h]

/-- Witness for C8: `Shaurburgers.is_work_active` (a decorated method) on a
driver that is not on the Shaurburgers page returns `None` and changes
nothing. -/
theorem require_location_page_aborts_when_not_opened_witness :
    Shaurburgers.is_opened
      { currentUrl := "https://www.moswar.ru/", leaveButton := true,
        leaveButtonAfter := true, selectHoursText := none, selectOptions := [],
        startButton := true, on_work := false, work_time_left := 3 } = false ∧
    Shaurburgers.is_work_active
      { currentUrl := "https://www.moswar.ru/", leaveButton := true,
        leaveButtonAfter := true, selectHoursText := none, selectOptions := [],
        startButton := true, on_work := false, work_time_left := 3 } =
      ({ currentUrl := "https://www.moswar.ru/", leaveButton := true,
         leaveButtonAfter := true, selectHoursText := none, selectOptions := [],
         startButton := true, on_work := false, work_time_left := 3 }, none) :=
  ⟨rfl,
   require_location_page_aborts_when_not_opened Shaurburgers.is_opened
     (fun s =>
       if s.leaveButton then ({ s with on_work := true }, some true)
       else ({ s with on_work := false }, some false))
     { currentUrl := "https://www.moswar.ru/", leaveButton := true,
       leaveButtonAfter := true, selectHoursText := none, selectOptions := [],
       startButton := true, on_work := false, work_time_left := 3 }
     rfl⟩

namespace Shaurburgers

/-- Claim C10 (as stated it fails; see
`get_work_time_left_negative_from_page`): this is the amended claim.  On the
Shaurburgers page, `get_work_time_left` returns `-9999` (and stores it into
`player.work_time_left`) whenever the player is currently working; when not
working and the hour-selection element is missing it returns `0`; and the
only way it returns a negative number other than `-9999` is that the page's
hour-selection text itself parses to that negative number. -/
theorem get_work_time_left_sentinel (s : State) (hopen : is_opened s = true) :
    (s.leaveButton = true →
      (get_work_time_left s).2 = some (-9999) ∧
      (get_work_time_left s).1.work_time_left = -9999) ∧
    (s.leaveButton = false → s.selectHoursText = none →
      (get_work_time_left s).2 = some 0) ∧
    (∀ t, (get_work_time_left s).2 = some t → t < 0 → t ≠ -9999 →
      ∃ text, s.selectHoursText = some text ∧ parse_work_hours text = some t) := by
  refine ⟨?_, ?_, ?_⟩
  · intro hl
    constructor <;>
      simp [get_work_time_left, is_work_active, require_location_page, hopen, hl]
  · intro hl hsel
    simp [get_work_time_left, is_work_active, require_location_page, hopen, hl, hsel]
  · intro t ht hneg hne
    cases hl : s.leaveButton with
    | true =>
      simp [get_work_time_left, is_work_active, require_location_page, hopen, hl] at ht
      omega
    | false =>
      cases hsel : s.selectHoursText with
      | none =>
        simp [get_work_time_left, is_work_active, require_location_page,
          hopen, hl, hsel] at ht
        omega
      | some text =>
        simp [get_work_time_left, is_work_active, require_location_page,
          hopen, hl, hsel] at ht
        refine ⟨text, rfl, ?_⟩
        cases hparse : parse_work_hours text with
        | none =>
          rw [hparse] at ht
          simp at ht
          omega
        | some v =>
          rw [hparse] at ht
          simp at ht
          rw [ht]

/-- Witness for C10's amended claim: a working player yields the sentinel. -/
theorem get_work_time_left_sentinel_witness :
    is_opened { currentUrl := "https://www.moswar.ru/shaurburgers/", leaveButton := true,
                leaveButtonAfter := true, selectHoursText := none, selectOptions := [],
                startButton := true, on_work := false, work_time_left := 0 } = true ∧
    (get_work_time_left
      { currentUrl := "https://www.moswar.ru/shaurburgers/", leaveButton := true,
        leaveButtonAfter := true, selectHoursText := none, selectOptions := [],
        startButton := true, on_work := false, work_time_left := 0 }).2 = some (-9999) ∧
    (get_work_time_left
      { currentUrl := "https://www.moswar.ru/shaurburgers/", leaveButton := true,
        leaveButtonAfter := true, selectHoursText := none, selectOptions := [],
        startButton := true, on_work := false, work_time_left := 0 }).1.work_time_left =
      -9999 := by
  have h := (get_work_time_left_sentinel
    { currentUrl := "https://www.moswar.ru/shaurburgers/", leaveButton := true,
      leaveButtonAfter := true, selectHoursText := none, selectOptions := [],
      startButton := true, on_work := false, work_time_left := 0 } rfl).1 rfl
  exact ⟨rfl, h.1, h.2⟩

/-- Claim C10 counterexample: on a page whose hour-selection text reads
"-5 часов", a non-working player gets `-5` back, a negative number different
from `-9999`, so the claim's "never a negative number other than -9999"
fails on the code. -/
theorem get_work_time_left_negative_from_page :
    (get_work_time_left
      { currentUrl := "https://www.moswar.ru/shaurburgers/", leaveButton := false,
        leaveButtonAfter := false, selectHoursText := some "-5 часов",
        selectOptions := [], startButton := false, on_work := false,
        work_time_left := 0 }).2 = some (-5) ∧
    ((-5 : Int) < 0 ∧ (-5 : Int) ≠ -9999) :=
  ⟨rfl, by decide⟩

end Shaurburgers

/-- Helper: the click loop never makes more attempts than `times`. -/
theorem use_items_loop_le (clickFails : Nat → Bool) (i n : Nat) :
    (use_items_loop clickFails i n).1 ≤ n := by
  induction n generalizing i with
  | zero => simp [use_items_loop]
  | succ n ih =>
    unfold use_items_loop
    by_cases h : clickFails i
    · simp [h]
    · simp only [h, if_false, Bool.false_eq_true]
      have := ih (i + 1)
      omega

/-- Helper: when the first failing click attempt (counting from `start`) is
the `i`-th one and the loop runs for more than `i` rounds, exactly `i + 1`
attempts are made. -/
theorem use_items_loop_first_fail (clickFails : Nat → Bool) (i : Nat) :
    ∀ start n, i < n → (∀ j, j < i → clickFails (start + j) = false) →
      clickFails (start + i) = true →
      (use_items_loop clickFails start n).1 = i + 1 := by
  induction i with
  | zero =>
    intro start n hlt hok hf
    cases n with
    | zero => omega
    | succ m =>
      unfold use_items_loop
      rw [show start + 0 = start from rfl] at hf
      simp [hf]
  | succ i ih =>
    intro start n hlt hok hf
    cases n with
    | zero => omega
    | succ m =>
      have h0 : clickFails start = false := by
        have := hok 0 (by omega)
        simpa using this
      unfold use_items_loop
      simp only [h0, if_false, Bool.false_eq_true]
      have hok' : ∀ j, j < i → clickFails (start + 1 + j) = false := by
        intro j hj
        have := hok (j + 1) (by omega)
        rwa [show start + (j + 1) = start + 1 + j by omega] at this
      have hf' : clickFails (start + 1 + i) = true := by
        rwa [show start + (i + 1) = start + 1 + i by omega] at hf
      have := ih (start + 1) m (by omega) hok' hf'
      omega

namespace Player

/-- Claim C9 counterexample: with the item button present but the sibling
`count` element missing, `Player.use_item` raises (the `count` lookup is the
one `find_element` outside any `try`), so the method does not return `None`
in every case as the claim states. -/
theorem use_item_missing_count_element_raises :
    use_item "Полезный пельмень" 1
      { itemEl := true, countText := none, clickFails := fun _ => false } =
      (0, Except.error (PyError.noSuchElement "count")) := rfl

end Player

/-- Claim C9 (amended): neither `Player.use_item` nor
`PetForFightMain.use_item` ever clicks more times than requested (hence
never more than the available count, which the guard has checked to be at
least `times`): when the parsed count is below `times` they return `None`
with no click (for the pet, provided its unguarded `action` lookup
succeeded); otherwise they make at most `times` click attempts, and a first
failing attempt at index `i` ends the loop after `i + 1` attempts.  When
the method returns, it returns `None`; but a missing `count` element (or,
for the pet, a missing `action` element) raises instead of returning.  -/
theorem use_item_click_safety (item : String) (times : Int)
    (pg : Player.ItemPage) (pp : PetForFightMain.ItemPage) :
    ((Player.use_item item times pg).1 ≤ times.toNat) ∧
    (∀ text cnt, pg.countText = some text →
      pyInt? (text.data.filter (fun c => c != '#')) = some cnt → cnt < times →
      Player.use_item item times pg = (0, Except.ok ())) ∧
    ((PetForFightMain.use_item item times pp).1 ≤ times.toNat) ∧
    (∀ text cnt, pp.actionEl = true → pp.countText = some text →
      pyInt? (text.data.filter (fun c => c != '#')) = some cnt → cnt < times →
      PetForFightMain.use_item item times pp = (0, Except.ok ())) ∧
    (item = "Полезный пельмень" → pg.itemEl = true → pg.countText = none →
      (Player.use_item item times pg).2 =
        Except.error (PyError.noSuchElement "count")) ∧
    (∀ i, i < times.toNat → (∀ j, j < i → pg.clickFails j = false) →
      pg.clickFails i = true →
      ∀ text cnt, item = "Полезный пельмень" → pg.itemEl = true →
        pg.countText = some text →
        pyInt? (text.data.filter (fun c => c != '#')) = some cnt →
        ¬ cnt < times →
        (Player.use_item item times pg).1 = i + 1) ∧
    (∀ i, i < times.toNat → (∀ j, j < i → pp.clickFails j = false) →
      pp.clickFails i = true →
      ∀ text cnt, (PetForFightMain.item_img_links.lookup item).isSome = true →
        pp.itemEl = true → pp.actionEl = true →
        pp.countText = some text →
        pyInt? (text.data.filter (fun c => c != '#')) = some cnt →
        ¬ cnt < times →
        (PetForFightMain.use_item item times pp).1 = i + 1) := by
  refine ⟨?_, ?_, ?_, ?_, ?_, ?_, ?_⟩
  · unfold Player.use_item
    repeat' split
    all_goals simp [use_items_loop_le]
  · intro text cnt hct hparse hcnt
    by_cases hi : item = "Полезный пельмень" <;>
      cases hel : pg.itemEl <;>
      simp [Player.use_item, hi, hel, hct, hparse, hcnt]
  · unfold PetForFightMain.use_item
    repeat' split
    all_goals simp [use_items_loop_le]
  · intro text cnt hac hct hparse hcnt
    by_cases hi : (PetForFightMain.item_img_links.lookup item).isSome = false <;>
      cases hel : pp.itemEl <;>
      simp [PetForFightMain.use_item, hi, hel, hac, hct, hparse, hcnt]
  · intro hi hel hct
    simp [Player.use_item, hi, hel, hct]
  · intro i hlt hok hf text cnt hi hel hct hparse hcnt
    have hloop := use_items_loop_first_fail pg.clickFails i 0 times.toNat hlt
      (by intro j hj; simpa using hok j hj) (by simpa using hf)
    simp [Player.use_item, hi, hel, hct, hparse, hcnt, hloop]
  · intro i hlt hok hf text cnt hi hel hac hct hparse hcnt
    have hloop := use_items_loop_first_fail pp.clickFails i 0 times.toNat hlt
      (by intro j hj; simpa using hok j hj) (by simpa using hf)
    simp [PetForFightMain.use_item, hi, hel, hac, hct, hparse, hcnt, hloop]

/-- Witness for C9's amended claim: with 2 available and 3 requested, no
click happens; with 5 available, 3 requested and the second click failing,
exactly 2 attempts are made. -/
theorem use_item_click_safety_witness :
    pyInt? ("#2".data.filter (fun c => c != '#')) = some 2 ∧ (2 : Int) < 3 ∧
    Player.use_item "Полезный пельмень" 3
      { itemEl := true, countText := some "#2", clickFails := fun _ => false } =
      (0, Except.ok ()) :=
  ⟨rfl, by decide,
   (use_item_click_safety "Полезный пельмень" 3
     { itemEl := true, countText := some "#2", clickFails := fun _ => false }
     { itemEl := true, countText := some "#2", actionEl := true,
       clickFails := fun _ => false }).2.1
     "#2" 2 rfl rfl (by decide)⟩

namespace Alley

/-- Claim C6 counterexample: `Alley.start_patrol` invoked with a valid
duration while the page shows a patrol already active returns `None` without
re-parsing the remaining activity time from the page (no time read happens),
refuting "on every invocation ... read the remaining activity time". -/
theorem start_patrol_skips_reparse_when_active :
    (start_patrol 20
      { patrolActive := true, patrolActiveAfter := true,
        timeLeftText := some "осталось 40 минут", selectPresent := true,
        selectOptions := ["20 минут"], startButton := true, on_patrol := false,
        patrol_time_left := 40 }).2.1.timeRead = false ∧
    (start_patrol 20
      { patrolActive := true, patrolActiveAfter := true,
        timeLeftText := some "осталось 40 минут", selectPresent := true,
        selectOptions := ["20 минут"], startButton := true, on_patrol := false,
        patrol_time_left := 40 }).2.2 = Except.ok () := ⟨rfl, rfl⟩

end Alley

namespace Shaurburgers

/-- Helper: the undecorated body of `start_work_shift` clicks the start
control only after re-reading the remaining hours in the same invocation and
only when they cover the request, and a re-read value below the request
means no click and a normal `None` return. -/
theorem start_work_shift_body_events (work_hours : Int) (w : State) :
    ((start_work_shift_body work_hours w).2.1.startClicked = true →
      (start_work_shift_body work_hours w).2.1.timeRead = true ∧
      ∃ t, (get_work_time_left (is_work_active w).1).2 = some t ∧
        work_hours ≤ t) ∧
    (∀ t, (get_work_time_left (is_work_active w).1).2 = some t →
      t < work_hours →
      (start_work_shift_body work_hours w).2.1.startClicked = false ∧
      (start_work_shift_body work_hours w).2.2 = Except.ok ()) := by
  rcases hia : is_work_active w with ⟨w1, ab⟩
  rcases hgw : get_work_time_left w1 with ⟨w2, rt⟩
  by_cases hwh : 1 ≤ work_hours ∧ work_hours ≤ 8
  case neg => simp [start_work_shift_body, hwh]
  case pos =>
  rcases ab with _ | b
  · rcases rt with _ | t0
    · simp [start_work_shift_body, hia, hgw, hwh]
    · rcases hsel2 : w2.selectHoursText with _ | text <;>
        by_cases hopt :
          w2.selectOptions.contains (work_hours_str work_hours) = false <;>
        cases hsb : w2.startButton <;>
        rcases hia2 : is_work_active { w2 with leaveButton := w2.leaveButtonAfter }
          with ⟨w4, ab2⟩ <;>
        rcases ab2 with _ | ⟨_ | _⟩ <;>
        simp [start_work_shift_body, hia, hgw, hwh, hsel2, hopt, hsb, hia2] <;>
        split_ifs with hT <;>
        simp_all
  · cases b
    · rcases rt with _ | t0
      · simp [start_work_shift_body, hia, hgw, hwh]
      · rcases hsel2 : w2.selectHoursText with _ | text <;>
          by_cases hopt :
            w2.selectOptions.contains (work_hours_str work_hours) = false <;>
          cases hsb : w2.startButton <;>
          rcases hia2 : is_work_active { w2 with leaveButton := w2.leaveButtonAfter }
            with ⟨w4, ab2⟩ <;>
          rcases ab2 with _ | ⟨_ | _⟩ <;>
          simp [start_work_shift_body, hia, hgw, hwh, hsel2, hopt, hsb, hia2] <;>
          split_ifs with hT <;>
          simp_all
    · simp [start_work_shift_body, hia, hgw, hwh]

end Shaurburgers

/-- Claim C6 (amended): both `Alley.start_patrol` and
`Shaurburgers.start_work_shift` re-parse the server-reported countdown
before acting: the start click is only ever issued in an invocation that has
re-read the remaining activity time from the current page and found it at
least the requested duration, and whenever the re-parsed remaining time is
less than the requested duration no start click happens and the call returns
`None`.  (Invocations stopped by the preliminary checks — invalid duration,
activity already active, or the page guard — return `None` without
re-parsing the countdown.) -/
theorem start_actions_reparse_before_click (patrol_minutes work_hours : Int)
    (s : Alley.State) (w : Shaurburgers.State) :
    ((Alley.start_patrol patrol_minutes s).2.1.startClicked = true →
      (Alley.start_patrol patrol_minutes s).2.1.timeRead = true ∧
      patrol_minutes ≤
        (Alley.get_patrol_time_left (Alley.is_patrol_active s).1).2) ∧
    ((Alley.get_patrol_time_left (Alley.is_patrol_active s).1).2 <
        patrol_minutes →
      (Alley.start_patrol patrol_minutes s).2.1.startClicked = false ∧
      (Alley.start_patrol patrol_minutes s).2.2 = Except.ok ()) ∧
    (∀ w' ev r,
      Shaurburgers.start_work_shift work_hours w = (w', some (ev, r)) →
      (ev.startClicked = true →
        ev.timeRead = true ∧
        ∃ t, (Shaurburgers.get_work_time_left
          (Shaurburgers.is_work_active w).1).2 = some t ∧ work_hours ≤ t) ∧
      (∀ t, (Shaurburgers.get_work_time_left
          (Shaurburgers.is_work_active w).1).2 = some t →
        t < work_hours → ev.startClicked = false ∧ r = Except.ok ())) := by
  refine ⟨?_, ?_, ?_⟩
  · rcases hia : Alley.is_patrol_active s with ⟨s1, ab⟩
    rcases hgp : Alley.get_patrol_time_left s1 with ⟨s2, T⟩
    by_cases hpm : patrol_minutes = 20 ∨ patrol_minutes = 40 <;>
      cases ab <;>
      by_cases hT : T < patrol_minutes <;>
      cases hsp : s2.selectPresent <;>
      by_cases hopt :
        s2.selectOptions.contains (toString patrol_minutes ++ " минут") = false <;>
      cases hsb : s2.startButton <;>
      rcases hia2 : Alley.is_patrol_active { s2 with patrolActive := s2.patrolActiveAfter }
        with ⟨s4, ab2⟩ <;>
      cases ab2 <;>
      simp_all [Alley.start_patrol] <;>
      (try (split <;> simp_all))
  · rcases hia : Alley.is_patrol_active s with ⟨s1, ab⟩
    rcases hgp : Alley.get_patrol_time_left s1 with ⟨s2, T⟩
    intro hT
    by_cases hpm : patrol_minutes = 20 ∨ patrol_minutes = 40 <;>
      cases ab <;>
      simp_all [Alley.start_patrol]
  · intro w' ev r heq
    cases hop : Shaurburgers.is_opened w with
    | false =>
      rw [Shaurburgers.start_work_shift, require_location_page, hop] at heq
      simp at heq
    | true =>
      rw [Shaurburgers.start_work_shift, require_location_page, hop] at heq
      simp only [Bool.true_eq_false, if_false] at heq
      rcases hb : Shaurburgers.start_work_shift_body work_hours w with ⟨w1, ev1, r1⟩
      rw [hb] at heq
      simp only [Prod.mk.injEq, Option.some.injEq] at heq
      obtain ⟨-, hev, hr⟩ := heq
      have hkey := Shaurburgers.start_work_shift_body_events work_hours w
      rw [hb] at hkey
      rw [← hev, ← hr]
      exact hkey

/-- Witness for C6's amended claim: with only 10 minutes of patrol time
shown on the page, a request for 20 minutes re-parses the countdown, does
not click, and returns `None`. -/
theorem start_actions_reparse_before_click_witness :
    (Alley.get_patrol_time_left (Alley.is_patrol_active
      { patrolActive := false, patrolActiveAfter := true,
        timeLeftText := some "осталось 10 минут", selectPresent := true,
        selectOptions := ["20 минут"], startButton := true, on_patrol := false,
        patrol_time_left := 0 }).1).2 < 20 ∧
    ((Alley.start_patrol 20
      { patrolActive := false, patrolActiveAfter := true,
        timeLeftText := some "осталось 10 минут", selectPresent := true,
        selectOptions := ["20 минут"], startButton := true, on_patrol := false,
        patrol_time_left := 0 }).2.1.startClicked = false ∧
     (Alley.start_patrol 20
      { patrolActive := false, patrolActiveAfter := true,
        timeLeftText := some "осталось 10 минут", selectPresent := true,
        selectOptions := ["20 минут"], startButton := true, on_patrol := false,
        patrol_time_left := 0 }).2.2 = Except.ok ()) :=
  ⟨by decide,
   (start_actions_reparse_before_click 20 8
     { patrolActive := false, patrolActiveAfter := true,
       timeLeftText := some "осталось 10 минут", selectPresent := true,
       selectOptions := ["20 минут"], startButton := true, on_patrol := false,
       patrol_time_left := 0 }
     { currentUrl := "https://www.moswar.ru/shaurburgers/", leaveButton := false,
       leaveButtonAfter := false, selectHoursText := none, selectOptions := [],
       startButton := false, on_work := false, work_time_left := 0 }).2.1
     (by decide)⟩

end Moswar
